import Mathlib

/-!
Verification of the randomized notification-sound scheduler.

The repository has two variants of the application:
* `src/App.tsx` — the notification-based app: it schedules batches of future
  OS notifications at random intervals, tracks their identifiers in memory,
  replenishes the batch on app-state changes, and cancels everything when the
  user stops the feature or moves an interval slider.
* `src/unnamed/part_001` — an older audio-timer variant that plays a sound via
  `setTimeout` chains.

The embedding below translates the interval arithmetic and the state-updating
functions of both variants into Lean.  Times are modelled in milliseconds as
integers, random samples from `Math.random()` as rationals in `[0, 1)`, and
the external notification service as an explicit list of `(identifier,
triggerTime)` pairs held by the OS.  The stream of random draws used for the
interval computation (App.tsx line 227 and line 234) is modelled as a function
`rs : ℕ → ℚ` indexed by draw position; the randomness that goes into the
generated identifier string (line 241) and the result of
`Notifications.scheduleNotificationAsync` are folded into an abstract supply
`sched : ℕ → Option String`, where `none` at position `i` models the API call
throwing at loop iteration `i`.
-/

/-- The random interval computation of `src/App.tsx` lines 234–236 (also
lines 227–229): `Math.floor(Math.random() * (maxInterval - minInterval + 1) +
minInterval)`, with the random sample `r` made explicit. -/
def randomInterval (minI maxI : ℤ) (r : ℚ) : ℤ :=
  ⌊r * ((maxI : ℚ) - (minI : ℚ) + 1) + (minI : ℚ)⌋

/-- The random interval computation of `src/unnamed/part_001` lines 65–67:
`Math.floor(Math.random() * (maxInterval - minInterval + 1) + minInterval)`. -/
def soundRandomInterval (minI maxI : ℤ) (r : ℚ) : ℤ :=
  ⌊r * ((maxI : ℚ) - (minI : ℚ) + 1) + (minI : ℚ)⌋

/-- JavaScript Math.round: round half toward positive infinity. -/
def jsRound (v : ℚ) : ℤ := ⌊v + 1 / 2⌋

lemma randomInterval_lb (minI maxI : ℤ) (r : ℚ) (hmm : minI ≤ maxI)
    (hr0 : 0 ≤ r) : minI ≤ randomInterval minI maxI r := by
  unfold randomInterval
  rw [Int.le_floor]
  have hn : (0 : ℚ) ≤ (maxI : ℚ) - (minI : ℚ) + 1 := by
    have : (minI : ℚ) ≤ (maxI : ℚ) := by exact_mod_cast hmm
    linarith
  nlinarith

lemma randomInterval_ub (minI maxI : ℤ) (r : ℚ) (hmm : minI ≤ maxI)
    (hr1 : r < 1) : randomInterval minI maxI r ≤ maxI := by
  unfold randomInterval
  have h : randomInterval minI maxI r < maxI + 1 := by
    unfold randomInterval
    rw [Int.floor_lt]
    have hn : (0 : ℚ) < (maxI : ℚ) - (minI : ℚ) + 1 := by
      have : (minI : ℚ) ≤ (maxI : ℚ) := by exact_mod_cast hmm
      linarith
    push_cast
    nlinarith
  unfold randomInterval at h
  omega

/-- Claim C1. For interval bounds with `minInterval ≤ maxInterval` and any
random sample `r ∈ [0, 1)`, the generated interval
`Math.floor(r * (maxInterval - minInterval + 1) + minInterval)` lies in the
closed range `[minInterval, maxInterval]`; moreover it equals `k` exactly when
`r` lies in the half-open interval
`[(k - minInterval)/n, (k - minInterval + 1)/n)` with
`n = maxInterval - minInterval + 1`, and every such interval has the same
width `1/n` — an equal-measure set of samples for each value, i.e. the
distribution over `[minInterval, maxInterval]` is uniform. -/
theorem randomInterval_range_uniform (minI maxI : ℤ) (r : ℚ)
    (hmm : minI ≤ maxI) (hr0 : 0 ≤ r) (hr1 : r < 1) :
    minI ≤ randomInterval minI maxI r ∧ randomInterval minI maxI r ≤ maxI ∧
    (∀ k : ℤ,
      (randomInterval minI maxI r = k ↔
        ((k : ℚ) - (minI : ℚ)) / ((maxI : ℚ) - (minI : ℚ) + 1) ≤ r ∧
        r < ((k : ℚ) - (minI : ℚ) + 1) / ((maxI : ℚ) - (minI : ℚ) + 1)) ∧
      ((k : ℚ) - (minI : ℚ) + 1) / ((maxI : ℚ) - (minI : ℚ) + 1) -
        ((k : ℚ) - (minI : ℚ)) / ((maxI : ℚ) - (minI : ℚ) + 1) =
        1 / ((maxI : ℚ) - (minI : ℚ) + 1)) := by
  have hn : (0 : ℚ) < (maxI : ℚ) - (minI : ℚ) + 1 := by
    have : (minI : ℚ) ≤ (maxI : ℚ) := by exact_mod_cast hmm
    linarith
  refine ⟨randomInterval_lb minI maxI r hmm hr0,
          randomInterval_ub minI maxI r hmm hr1, fun k => ⟨?_, ?_⟩⟩
  · unfold randomInterval
    rw [Int.floor_eq_iff]
    constructor
    · rintro ⟨h1, h2⟩
      constructor
      · rw [div_le_iff₀ hn]
        nlinarith
      · rw [lt_div_iff₀ hn]
        nlinarith
    · rintro ⟨h1, h2⟩
      rw [div_le_iff₀ hn] at h1
      rw [lt_div_iff₀ hn] at h2
      constructor
      · nlinarith
      · nlinarith
  · field_simp

/-- The React state and refs of the `App` component of `src/App.tsx`
(lines 34–40) together with the OS-side list of scheduled notifications,
each a pair of its identifier and its trigger time in milliseconds. -/
structure AppModel where
  isActive : Bool
  minInterval : ℤ
  maxInterval : ℤ
  scheduledCount : ℕ
  isActiveRef : Bool
  notificationIds : List String
  scheduledNotificationsRef : ℕ
  osScheduled : List (String × ℤ)
deriving DecidableEq

/-- The environment of one invocation of the scheduling code: `Date.now()` at
the start of the batch, the stream of `Math.random()` draws used for interval
computation, and the outcome of the `i`-th `scheduleNotificationAsync` call
(`some id` on success, `none` when the call throws). -/
structure Env where
  now : ℤ
  rs : ℕ → ℚ
  sched : ℕ → Option String

/-- The `for` loop of `scheduleNextNotificationBatch` (`src/App.tsx` lines
233–261): starting at draw index `i` with `n` iterations left and running
time `cur`, compute the random interval, add it (in milliseconds) to `cur`,
and when the resulting trigger time is in the future, submit the
notification; the loop stops early (second component `true`) when the submit
call throws.  `currentTime` only advances on a submitted iteration, exactly
as in the source where the increment sits inside the `if` block. -/
def batchLoop (minI maxI : ℤ) (rs : ℕ → ℚ) (sched : ℕ → Option String)
    (now : ℤ) : ℕ → ℕ → ℤ → List (String × ℤ) × Bool
  | _, 0, _ => ([], false)
  | i, Nat.succ n, cur =>
    let rI := randomInterval minI maxI (rs i)
    let t := cur + rI * 1000
    if now < t then
      match sched i with
      | none => ([], true)
      | some nid =>
        let rest := batchLoop minI maxI rs sched now (i + 1) n t
        ((nid, t) :: rest.1, rest.2)
    else
      batchLoop minI maxI rs sched now (i + 1) n cur

/-- Number of notifications a batch attempts to schedule
(`src/App.tsx` line 219): 32 for the initial batch, 2 otherwise. -/
def batchCount (initialBatch : Bool) : ℕ := if initialBatch then 32 else 2

/-- First draw index used by the batch loop: the `skipFirst` branch
(lines 225–231) consumes draw 0. -/
def batchStartIdx (skipFirst : Bool) : ℕ := if skipFirst then 1 else 0

/-- Value of `currentTime` entering the loop (lines 223–231): `Date.now()`, advanced
by one random interval when `skipFirst` is set. -/
def batchStartTime (env : Env) (skipFirst : Bool) (minI maxI : ℤ) : ℤ :=
  if skipFirst then env.now + randomInterval minI maxI (env.rs 0) * 1000
  else env.now

/-- The pairs submitted by one batch call, with the error flag. -/
def batchPairs (env : Env) (skipFirst initialBatch : Bool)
    (minI maxI : ℤ) : List (String × ℤ) × Bool :=
  batchLoop minI maxI env.rs env.sched env.now (batchStartIdx skipFirst)
    (batchCount initialBatch) (batchStartTime env skipFirst minI maxI)

/-- Model of `scheduleNextNotificationBatch` (`src/App.tsx` lines 214–292).  Returns
the updated state and whether the `catch` block registered the retry
`setTimeout` (lines 283–290).  `activeAtCatch` is the value of
`isActiveRef.current` when the `catch` block runs: the awaits inside the
`try` block can interleave with `toggleActive`, so it may differ from the
value at entry.  On the error path the tracking updates of lines 264–266 are
skipped, as in the source, where the exception jumps over them. -/
def scheduleNextNotificationBatch (env : Env)
    (skipFirst initialBatch activeAtCatch : Bool) (s : AppModel) :
    AppModel × Bool :=
  if s.isActiveRef = false then (s, false)
  else
    let res := batchPairs env skipFirst initialBatch s.minInterval s.maxInterval
    if res.2 then
      ({ s with osScheduled := s.osScheduled ++ res.1 },
       activeAtCatch && res.1.isEmpty)
    else
      ({ s with
          osScheduled := s.osScheduled ++ res.1,
          notificationIds := s.notificationIds ++ res.1.map Prod.fst,
          scheduledNotificationsRef :=
            (s.notificationIds ++ res.1.map Prod.fst).length,
          scheduledCount := (s.notificationIds ++ res.1.map Prod.fst).length },
       false)

/-- Model of `cancelAllNotifications` (`src/App.tsx` lines 294–322): cancel every
OS-scheduled notification (with a per-identifier fallback for any the bulk
call left behind) and clear the in-memory tracking. -/
def cancelAllNotifications (s : AppModel) : AppModel :=
  { s with
      osScheduled := [],
      notificationIds := [],
      scheduledNotificationsRef := 0,
      scheduledCount := 0 }

/-- Model of `handleMinIntervalChange` (`src/App.tsx` lines 338–348): round the slider
value, clamp `maxInterval` up to it when it would overtake it, and while
active cancel everything and reschedule a large batch. -/
def handleMinIntervalChange (env : Env) (value : ℚ) (s : AppModel) :
    AppModel :=
  let newMin := jsRound value
  let s1 := { s with
      minInterval := newMin,
      maxInterval := if s.maxInterval < newMin then newMin else s.maxInterval }
  if s1.isActive then
    (scheduleNextNotificationBatch env false true s1.isActiveRef
      (cancelAllNotifications s1)).1
  else s1

/-- Model of `handleMaxIntervalChange` (`src/App.tsx` lines 350–360). -/
def handleMaxIntervalChange (env : Env) (value : ℚ) (s : AppModel) :
    AppModel :=
  let newMax := jsRound value
  let s1 := { s with
      maxInterval := newMax,
      minInterval := if newMax < s.minInterval then newMax else s.minInterval }
  if s1.isActive then
    (scheduleNextNotificationBatch env false true s1.isActiveRef
      (cancelAllNotifications s1)).1
  else s1

/-- Model of `toggleActive` (`src/App.tsx` lines 362–373). -/
def toggleActive (env : Env) (s : AppModel) : AppModel :=
  if s.isActive then
    cancelAllNotifications { s with isActiveRef := false, isActive := false }
  else
    (scheduleNextNotificationBatch env false true true
      { s with isActiveRef := true, isActive := true }).1

/-- The notification-received listener (`src/App.tsx` lines 131–154): for a
truthy (nonempty) identifier, cancel that notification if still scheduled,
drop it from the tracking, and update both counters; then, while active,
schedule a follow-up batch with `skipFirst` set. -/
def onNotificationReceived (env : Env) (identifier : String) (s : AppModel) :
    AppModel :=
  let s1 :=
    if identifier ≠ "" then
      let remaining := s.notificationIds.filter (fun nid => nid ≠ identifier)
      { s with
          osScheduled := s.osScheduled.filter (fun p => p.1 ≠ identifier),
          notificationIds := remaining,
          scheduledNotificationsRef := remaining.length,
          scheduledCount := remaining.length }
    else s
  if s1.isActiveRef then
    (scheduleNextNotificationBatch env true false s1.isActiveRef s1).1
  else s1

/-- The notification-response listener (`src/App.tsx` lines 157–165): for a
truthy identifier, drop it from `notificationIdsRef` and refresh
`scheduledCount`.  The source does not touch `scheduledNotificationsRef`
here. -/
def onNotificationResponse (identifier : String) (s : AppModel) : AppModel :=
  if identifier ≠ "" then
    let remaining := s.notificationIds.filter (fun nid => nid ≠ identifier)
    { s with notificationIds := remaining, scheduledCount := remaining.length }
  else s

/-- The three values of `AppStateStatus` relevant to the listener. -/
inductive AppStateStatus where
  | active
  | background
  | inactive
deriving DecidableEq

/-- The `AppState.addEventListener` callback (`src/App.tsx` lines 168–199).
`getAllScheduledNotificationsAsync` is read off the OS-side list.  The second
component records whether a replenishing `scheduleNextNotificationBatch`
call was made. -/
def handleAppStateChange (env : Env) (nextAppState : AppStateStatus)
    (s : AppModel) : AppModel × Bool :=
  if nextAppState = AppStateStatus.background ∧ s.isActiveRef = true then
    if s.osScheduled.length < 10 ∧ s.isActiveRef = true then
      ((scheduleNextNotificationBatch env false true s.isActiveRef s).1, true)
    else (s, false)
  else if nextAppState = AppStateStatus.active ∧ s.isActiveRef = true then
    if s.osScheduled.length < 20 then
      ((scheduleNextNotificationBatch env false true s.isActiveRef s).1, true)
    else (s, false)
  else (s, false)

/-- The state of the older audio-timer variant (`src/unnamed/part_001`,
lines 11–18): the countdown display and whether the `setTimeout` /
`setInterval` handles are set. -/
structure SoundModel where
  isActive : Bool
  nextSoundIn : Option ℤ
  minInterval : ℤ
  maxInterval : ℤ
  isActiveRef : Bool
  timerSet : Bool
  countdownSet : Bool
deriving DecidableEq

/-- Model of `scheduleNextSound` (`src/unnamed/part_001` lines 61–92): when inactive,
return immediately; otherwise draw a random interval, display it, and set the
countdown and sound timers. -/
def scheduleNextSound (r : ℚ) (s : SoundModel) : SoundModel :=
  if s.isActiveRef = false then s
  else
    { s with
        nextSoundIn := some (soundRandomInterval s.minInterval s.maxInterval r),
        countdownSet := true,
        timerSet := true }

/-- Model of `handleMinIntervalChange` of `src/unnamed/part_001` (lines 109–113). -/
def soundHandleMinIntervalChange (value : ℚ) (s : SoundModel) : SoundModel :=
  let newMin := jsRound value
  { s with
      minInterval := newMin,
      maxInterval := if s.maxInterval < newMin then newMin else s.maxInterval }

/-- Model of `handleMaxIntervalChange` of `src/unnamed/part_001` (lines 115–119). -/
def soundHandleMaxIntervalChange (value : ℚ) (s : SoundModel) : SoundModel :=
  let newMax := jsRound value
  { s with
      maxInterval := newMax,
      minInterval := if newMax < s.minInterval then newMax else s.minInterval }

/-- Trigger time of the `j`-th submitted notification of a batch whose loop
starts at draw index `i` with running time `cur`: `cur` plus the first `j + 1`
random intervals, each in milliseconds. -/
def chainTime (minI maxI : ℤ) (rs : ℕ → ℚ) (i : ℕ) (cur : ℤ) : ℕ → ℤ
  | 0 => cur + randomInterval minI maxI (rs i) * 1000
  | j + 1 => chainTime minI maxI rs i cur j +
      randomInterval minI maxI (rs (i + j + 1)) * 1000

lemma chainTime_shift (minI maxI : ℤ) (rs : ℕ → ℚ) :
    ∀ (j i : ℕ) (cur : ℤ),
      chainTime minI maxI rs i cur (j + 1) =
        chainTime minI maxI rs (i + 1)
          (cur + randomInterval minI maxI (rs i) * 1000) j := by
  intro j
  induction j with
  | zero => intro i cur; rfl
  | succ j ih =>
    intro i cur
    have h1 : i + (j + 1) + 1 = i + 1 + j + 1 := by omega
    calc chainTime minI maxI rs i cur (j + 1 + 1)
        = chainTime minI maxI rs i cur (j + 1) +
            randomInterval minI maxI (rs (i + (j + 1) + 1)) * 1000 := rfl
      _ = chainTime minI maxI rs (i + 1)
            (cur + randomInterval minI maxI (rs i) * 1000) j +
            randomInterval minI maxI (rs (i + 1 + j + 1)) * 1000 := by
            rw [ih, h1]
      _ = chainTime minI maxI rs (i + 1)
            (cur + randomInterval minI maxI (rs i) * 1000) (j + 1) := rfl

lemma randomInterval_ms_ge (minI maxI : ℤ) (r : ℚ) (h1 : 1 ≤ minI)
    (hmm : minI ≤ maxI) (hr0 : 0 ≤ r) :
    1000 ≤ randomInterval minI maxI r * 1000 := by
  have h := randomInterval_lb minI maxI r hmm hr0
  nlinarith

lemma chainTime_ge (minI maxI : ℤ) (rs : ℕ → ℚ) (h1 : 1 ≤ minI)
    (hmm : minI ≤ maxI) (hrs : ∀ i, 0 ≤ rs i) :
    ∀ (j i : ℕ) (cur : ℤ), cur + 1000 ≤ chainTime minI maxI rs i cur j := by
  intro j
  induction j with
  | zero =>
    intro i cur
    have := randomInterval_ms_ge minI maxI (rs i) h1 hmm (hrs i)
    show cur + 1000 ≤ cur + randomInterval minI maxI (rs i) * 1000
    linarith
  | succ j ih =>
    intro i cur
    have h2 := randomInterval_ms_ge minI maxI (rs (i + j + 1)) h1 hmm
      (hrs (i + j + 1))
    have h3 := ih i cur
    show cur + 1000 ≤ chainTime minI maxI rs i cur j +
      randomInterval minI maxI (rs (i + j + 1)) * 1000
    linarith

lemma batchLoop_closed (minI maxI : ℤ) (rs : ℕ → ℚ)
    (sched : ℕ → Option String) (idf : ℕ → String) (now : ℤ)
    (h1 : 1 ≤ minI) (hmm : minI ≤ maxI) (hrs : ∀ i, 0 ≤ rs i)
    (hsched : ∀ i, sched i = some (idf i)) :
    ∀ (n i : ℕ) (cur : ℤ), now ≤ cur →
      batchLoop minI maxI rs sched now i n cur =
        ((List.range n).map
          (fun j => (idf (i + j), chainTime minI maxI rs i cur j)), false) := by
  intro n
  induction n with
  | zero => intro i cur _; simp [batchLoop]
  | succ n ih =>
    intro i cur hcur
    have hI := randomInterval_ms_ge minI maxI (rs i) h1 hmm (hrs i)
    have hguard : now < cur + randomInterval minI maxI (rs i) * 1000 := by
      linarith
    rw [batchLoop]
    simp only [hsched i, if_pos hguard]
    rw [ih (i + 1) (cur + randomInterval minI maxI (rs i) * 1000)
      (by linarith)]
    have hlist : (idf i, cur + randomInterval minI maxI (rs i) * 1000) ::
        (List.range n).map
          (fun j => (idf (i + 1 + j),
            chainTime minI maxI rs (i + 1)
              (cur + randomInterval minI maxI (rs i) * 1000) j)) =
        (List.range (n + 1)).map
          (fun j => (idf (i + j), chainTime minI maxI rs i cur j)) := by
      rw [List.range_succ_eq_map, List.map_cons, List.map_map]
      congr 1
      apply List.map_congr_left
      intro a _
      have h2 : i + (a + 1) = i + 1 + a := by omega
      show (idf (i + 1 + a),
            chainTime minI maxI rs (i + 1)
              (cur + randomInterval minI maxI (rs i) * 1000) a) =
        (idf (i + (a + 1)), chainTime minI maxI rs i cur (a + 1))
      rw [chainTime_shift, h2]
    rw [← hlist]

lemma scheduleBatch_fields (env : Env) (sf ib ac : Bool) (s : AppModel) :
    (scheduleNextNotificationBatch env sf ib ac s).1.minInterval =
      s.minInterval ∧
    (scheduleNextNotificationBatch env sf ib ac s).1.maxInterval =
      s.maxInterval ∧
    (scheduleNextNotificationBatch env sf ib ac s).1.isActive = s.isActive ∧
    (scheduleNextNotificationBatch env sf ib ac s).1.isActiveRef =
      s.isActiveRef := by
  unfold scheduleNextNotificationBatch
  split
  · exact ⟨rfl, rfl, rfl, rfl⟩
  · dsimp only
    split
    · exact ⟨rfl, rfl, rfl, rfl⟩
    · exact ⟨rfl, rfl, rfl, rfl⟩

/-- Claim C10. The notification app (`src/App.tsx` lines 234–236) and the older
audio-timer app (`src/unnamed/part_001` lines 65–67) compute the random
interval by the same function: for every pair of bounds and every random
sample, the two computations agree. -/
theorem interval_formula_equivalence :
    ∀ (minI maxI : ℤ) (r : ℚ),
      randomInterval minI maxI r = soundRandomInterval minI maxI r :=
  fun _ _ _ => rfl

/-- Claim C8. Notifications are never scheduled while the feature is stopped:
a call to `scheduleNextNotificationBatch` with `isActiveRef.current` false
returns without submitting anything and without touching
`notificationIdsRef`, `scheduledNotificationsRef` or `scheduledCount` (the
whole state is unchanged and no retry is registered); likewise
`scheduleNextSound` of the older variant leaves its state unchanged when
inactive. -/
theorem inactive_schedules_nothing (env : Env) (sf ib ac : Bool)
    (s : AppModel) (r : ℚ) (t : SoundModel)
    (hs : s.isActiveRef = false) (ht : t.isActiveRef = false) :
    scheduleNextNotificationBatch env sf ib ac s = (s, false) ∧
    scheduleNextSound r t = t := by
  constructor
  · unfold scheduleNextNotificationBatch
    rw [if_pos hs]
  · unfold scheduleNextSound
    rw [if_pos ht]

/-- Claim C9. The slider handlers of both variants leave the interval bounds ordered:
after `handleMinIntervalChange` or `handleMaxIntervalChange` (of either app),
`minInterval ≤ maxInterval` holds for every input value. -/
theorem handlers_preserve_order (env : Env) (value : ℚ) (s : AppModel)
    (t : SoundModel) :
    ((handleMinIntervalChange env value s).minInterval ≤
      (handleMinIntervalChange env value s).maxInterval) ∧
    ((handleMaxIntervalChange env value s).minInterval ≤
      (handleMaxIntervalChange env value s).maxInterval) ∧
    ((soundHandleMinIntervalChange value t).minInterval ≤
      (soundHandleMinIntervalChange value t).maxInterval) ∧
    ((soundHandleMaxIntervalChange value t).minInterval ≤
      (soundHandleMaxIntervalChange value t).maxInterval) := by
  refine ⟨?_, ?_, ?_, ?_⟩
  · unfold handleMinIntervalChange
    dsimp only
    split
    · obtain ⟨h1, h2, -, -⟩ := scheduleBatch_fields env false true _ _
      rw [h1, h2]
      dsimp [cancelAllNotifications]
      split <;> omega
    · dsimp only
      split <;> omega
  · unfold handleMaxIntervalChange
    dsimp only
    split
    · obtain ⟨h1, h2, -, -⟩ := scheduleBatch_fields env false true _ _
      rw [h1, h2]
      dsimp [cancelAllNotifications]
      split <;> omega
    · dsimp only
      split <;> omega
  · unfold soundHandleMinIntervalChange
    dsimp only
    split <;> omega
  · unfold soundHandleMaxIntervalChange
    dsimp only
    split <;> omega

/-- Claim C2. Stopping the feature while active (`toggleActive` with `isActive`
true) cancels every outstanding request and resets the in-memory tracking to
empty/zero; a slider handler run while active likewise cancels everything and
resets the tracking (the state it hands to the rescheduling batch call has no
outstanding request and zeroed tracking); while inactive, a bounds change
cancels nothing and leaves the tracking untouched. -/
theorem cancel_on_stop_and_bounds_change (env : Env) (value : ℚ)
    (s : AppModel) :
    (s.isActive = true →
      (toggleActive env s).notificationIds = [] ∧
      (toggleActive env s).scheduledNotificationsRef = 0 ∧
      (toggleActive env s).scheduledCount = 0 ∧
      (toggleActive env s).osScheduled = []) ∧
    (s.isActive = true →
      ∃ c : AppModel,
        c.notificationIds = [] ∧ c.scheduledNotificationsRef = 0 ∧
        c.scheduledCount = 0 ∧ c.osScheduled = [] ∧
        handleMinIntervalChange env value s =
          (scheduleNextNotificationBatch env false true c.isActiveRef c).1) ∧
    (s.isActive = true →
      ∃ c : AppModel,
        c.notificationIds = [] ∧ c.scheduledNotificationsRef = 0 ∧
        c.scheduledCount = 0 ∧ c.osScheduled = [] ∧
        handleMaxIntervalChange env value s =
          (scheduleNextNotificationBatch env false true c.isActiveRef c).1) ∧
    (s.isActive = false →
      (handleMinIntervalChange env value s).notificationIds =
        s.notificationIds ∧
      (handleMinIntervalChange env value s).scheduledNotificationsRef =
        s.scheduledNotificationsRef ∧
      (handleMinIntervalChange env value s).scheduledCount =
        s.scheduledCount ∧
      (handleMinIntervalChange env value s).osScheduled = s.osScheduled) ∧
    (s.isActive = false →
      (handleMaxIntervalChange env value s).notificationIds =
        s.notificationIds ∧
      (handleMaxIntervalChange env value s).scheduledNotificationsRef =
        s.scheduledNotificationsRef ∧
      (handleMaxIntervalChange env value s).scheduledCount =
        s.scheduledCount ∧
      (handleMaxIntervalChange env value s).osScheduled = s.osScheduled) := by
  refine ⟨?_, ?_, ?_, ?_, ?_⟩
  · intro h
    unfold toggleActive
    rw [if_pos h]
    exact ⟨rfl, rfl, rfl, rfl⟩
  · intro h
    refine ⟨cancelAllNotifications
      { s with minInterval := jsRound value,
               maxInterval := if s.maxInterval < jsRound value then jsRound value
                              else s.maxInterval }, rfl, rfl, rfl, rfl, ?_⟩
    unfold handleMinIntervalChange
    dsimp only
    split
    · rfl
    · next hc => exact absurd h hc
  · intro h
    refine ⟨cancelAllNotifications
      { s with maxInterval := jsRound value,
               minInterval := if jsRound value < s.minInterval then jsRound value
                              else s.minInterval }, rfl, rfl, rfl, rfl, ?_⟩
    unfold handleMaxIntervalChange
    dsimp only
    split
    · rfl
    · next hc => exact absurd h hc
  · intro h
    unfold handleMinIntervalChange
    dsimp only
    split
    · next hc => exact absurd hc (by simp [h])
    · exact ⟨rfl, rfl, rfl, rfl⟩
  · intro h
    unfold handleMaxIntervalChange
    dsimp only
    split
    · next hc => exact absurd hc (by simp [h])
    · exact ⟨rfl, rfl, rfl, rfl⟩

/-- Claim C4. With the feature active, the app-state listener schedules a
replenishing batch on coming to the foreground exactly when the OS-side count
of scheduled notifications is below 20, and on going to the background
exactly when it is below 10. -/
theorem appState_replenish_iff (env : Env) (s : AppModel)
    (hact : s.isActiveRef = true) :
    ((handleAppStateChange env AppStateStatus.active s).2 = true ↔
      s.osScheduled.length < 20) ∧
    ((handleAppStateChange env AppStateStatus.background s).2 = true ↔
      s.osScheduled.length < 10) := by
  constructor
  · unfold handleAppStateChange
    rw [if_neg (by rintro ⟨h, -⟩; cases h), if_pos ⟨rfl, hact⟩]
    by_cases h : s.osScheduled.length < 20
    · rw [if_pos h]
      simpa using h
    · rw [if_neg h]
      simpa using h
  · unfold handleAppStateChange
    rw [if_pos ⟨rfl, hact⟩]
    by_cases h : s.osScheduled.length < 10
    · rw [if_pos ⟨h, hact⟩]
      simpa using h
    · rw [if_neg (fun hc => h hc.1)]
      simpa using h

lemma batchStartTime_ge (env : Env) (sf : Bool) (minI maxI : ℤ)
    (h1 : 1 ≤ minI) (hmm : minI ≤ maxI) (hr0 : 0 ≤ env.rs 0) :
    env.now ≤ batchStartTime env sf minI maxI := by
  unfold batchStartTime
  split
  · have := randomInterval_ms_ge minI maxI (env.rs 0) h1 hmm hr0
    linarith
  · exact le_refl env.now

/-- Closed form of the pairs one batch submits when no scheduling call
throws: the `j`-th notification carries the `j`-th supplied identifier and
trigger time `chainTime … j`. -/
def batchChainPairs (env : Env) (skipFirst initialBatch : Bool)
    (minI maxI : ℤ) (idf : ℕ → String) : List (String × ℤ) :=
  (List.range (batchCount initialBatch)).map
    (fun j => (idf (batchStartIdx skipFirst + j),
      chainTime minI maxI env.rs (batchStartIdx skipFirst)
        (batchStartTime env skipFirst minI maxI) j))

lemma batchPairs_closed (env : Env) (sf ib : Bool) (minI maxI : ℤ)
    (idf : ℕ → String) (h1 : 1 ≤ minI) (hmm : minI ≤ maxI)
    (hrs : ∀ i, 0 ≤ env.rs i) (hsched : ∀ i, env.sched i = some (idf i)) :
    batchPairs env sf ib minI maxI = (batchChainPairs env sf ib minI maxI idf,
      false) := by
  unfold batchPairs batchChainPairs
  exact batchLoop_closed minI maxI env.rs env.sched idf env.now h1 hmm hrs
    hsched (batchCount ib) (batchStartIdx sf) _
    (batchStartTime_ge env sf minI maxI h1 hmm (hrs 0))

lemma scheduleBatch_success (env : Env) (sf ib ac : Bool) (s : AppModel)
    (idf : ℕ → String) (hact : s.isActiveRef = true) (h1 : 1 ≤ s.minInterval)
    (hmm : s.minInterval ≤ s.maxInterval) (hrs : ∀ i, 0 ≤ env.rs i)
    (hsched : ∀ i, env.sched i = some (idf i)) :
    scheduleNextNotificationBatch env sf ib ac s =
      ({ s with
          osScheduled := s.osScheduled ++
            batchChainPairs env sf ib s.minInterval s.maxInterval idf,
          notificationIds := s.notificationIds ++
            (batchChainPairs env sf ib s.minInterval s.maxInterval idf).map
              Prod.fst,
          scheduledNotificationsRef := (s.notificationIds ++
            (batchChainPairs env sf ib s.minInterval s.maxInterval idf).map
              Prod.fst).length,
          scheduledCount := (s.notificationIds ++
            (batchChainPairs env sf ib s.minInterval s.maxInterval idf).map
              Prod.fst).length }, false) := by
  unfold scheduleNextNotificationBatch
  rw [if_neg (by simp [hact])]
  dsimp only
  rw [batchPairs_closed env sf ib s.minInterval s.maxInterval idf h1 hmm hrs
    hsched]
  rw [if_neg (by simp)]

/-- Claim C3. While active, with `1 ≤ minInterval ≤ maxInterval`, a batch call
submits exactly the chain of trigger times `chainTime … 0, 1, 2, …`: every
submitted trigger time is strictly later than `Date.now()` at the start of
the batch computation, consecutive trigger times are strictly increasing, and
each is offset from its predecessor by the random interval of that iteration in
seconds times 1000. -/
theorem scheduleBatch_trigger_chain (env : Env) (sf ib ac : Bool)
    (s : AppModel) (idf : ℕ → String) (hact : s.isActiveRef = true)
    (h1 : 1 ≤ s.minInterval) (hmm : s.minInterval ≤ s.maxInterval)
    (hrs : ∀ i, 0 ≤ env.rs i) (hsched : ∀ i, env.sched i = some (idf i)) :
    (scheduleNextNotificationBatch env sf ib ac s).1.osScheduled =
      s.osScheduled ++
        batchChainPairs env sf ib s.minInterval s.maxInterval idf ∧
    (∀ j : ℕ, env.now <
      chainTime s.minInterval s.maxInterval env.rs (batchStartIdx sf)
        (batchStartTime env sf s.minInterval s.maxInterval) j) ∧
    (∀ j : ℕ,
      chainTime s.minInterval s.maxInterval env.rs (batchStartIdx sf)
        (batchStartTime env sf s.minInterval s.maxInterval) j <
      chainTime s.minInterval s.maxInterval env.rs (batchStartIdx sf)
        (batchStartTime env sf s.minInterval s.maxInterval) (j + 1) ∧
      chainTime s.minInterval s.maxInterval env.rs (batchStartIdx sf)
        (batchStartTime env sf s.minInterval s.maxInterval) (j + 1) =
      chainTime s.minInterval s.maxInterval env.rs (batchStartIdx sf)
        (batchStartTime env sf s.minInterval s.maxInterval) j +
        randomInterval s.minInterval s.maxInterval
          (env.rs (batchStartIdx sf + j + 1)) * 1000) := by
  refine ⟨?_, ?_, ?_⟩
  · rw [scheduleBatch_success env sf ib ac s idf hact h1 hmm hrs hsched]
  · intro j
    have hst := batchStartTime_ge env sf s.minInterval s.maxInterval h1 hmm
      (hrs 0)
    have hc := chainTime_ge s.minInterval s.maxInterval env.rs h1 hmm hrs j
      (batchStartIdx sf) (batchStartTime env sf s.minInterval s.maxInterval)
    linarith
  · intro j
    have h2 := randomInterval_ms_ge s.minInterval s.maxInterval
      (env.rs (batchStartIdx sf + j + 1)) h1 hmm (hrs _)
    have e : chainTime s.minInterval s.maxInterval env.rs (batchStartIdx sf)
        (batchStartTime env sf s.minInterval s.maxInterval) (j + 1) =
        chainTime s.minInterval s.maxInterval env.rs (batchStartIdx sf)
          (batchStartTime env sf s.minInterval s.maxInterval) j +
        randomInterval s.minInterval s.maxInterval
          (env.rs (batchStartIdx sf + j + 1)) * 1000 := rfl
    constructor
    · rw [e]
      linarith
    · exact e

/-- Claim C7. The rolling window uses two fixed batch sizes: an initial batch
attempts 32 notifications and an ongoing batch 2; with `minInterval ≥ 1`
every attempted notification passes the future-time guard and is submitted,
so the tracked identifier list grows by exactly 32 resp. 2. -/
theorem batch_sizes (env : Env) (sf ac : Bool) (s : AppModel)
    (idf : ℕ → String) (hact : s.isActiveRef = true)
    (h1 : 1 ≤ s.minInterval) (hmm : s.minInterval ≤ s.maxInterval)
    (hrs : ∀ i, 0 ≤ env.rs i) (hsched : ∀ i, env.sched i = some (idf i)) :
    batchCount true = 32 ∧ batchCount false = 2 ∧
    (scheduleNextNotificationBatch env sf true ac s).1.notificationIds.length
      = s.notificationIds.length + 32 ∧
    (scheduleNextNotificationBatch env sf false ac s).1.notificationIds.length
      = s.notificationIds.length + 2 := by
  refine ⟨rfl, rfl, ?_, ?_⟩
  · rw [scheduleBatch_success env sf true ac s idf hact h1 hmm hrs hsched]
    simp [batchChainPairs, batchCount]
  · rw [scheduleBatch_success env sf false ac s idf hact h1 hmm hrs hsched]
    simp [batchChainPairs, batchCount]

lemma append_eq_self_iff {α : Type} (l p : List α) : l ++ p = l ↔ p = [] := by
  constructor
  · intro h
    have h2 := congrArg List.length h
    rw [List.length_append] at h2
    have h3 : p.length = 0 := by omega
    exact List.length_eq_zero.mp h3
  · intro h
    rw [h, List.append_nil]

/-- Claim C5. When the batch loop throws, the handling is only logging and a
retry: the in-memory tracking is left untouched, and the retry `setTimeout`
is registered exactly when (still being active at the `catch`) no
notification of the failed batch had been scheduled — equivalently, when the
OS-side list did not grow; if at least one notification was scheduled before
the error, no retry is attempted. -/
theorem scheduleBatch_error_retry (env : Env) (sf ib ac : Bool)
    (s : AppModel) (hact : s.isActiveRef = true)
    (herr : (batchPairs env sf ib s.minInterval s.maxInterval).2 = true) :
    (scheduleNextNotificationBatch env sf ib ac s).1.notificationIds =
      s.notificationIds ∧
    (scheduleNextNotificationBatch env sf ib ac s).1.scheduledNotificationsRef
      = s.scheduledNotificationsRef ∧
    (scheduleNextNotificationBatch env sf ib ac s).1.scheduledCount =
      s.scheduledCount ∧
    ((scheduleNextNotificationBatch env sf ib ac s).2 = true ↔
      ac = true ∧
      (scheduleNextNotificationBatch env sf ib ac s).1.osScheduled =
        s.osScheduled) ∧
    ((batchPairs env sf ib s.minInterval s.maxInterval).1 ≠ [] →
      (scheduleNextNotificationBatch env sf ib ac s).2 = false) := by
  unfold scheduleNextNotificationBatch
  rw [if_neg (by simp [hact])]
  dsimp only
  rw [if_pos herr]
  refine ⟨rfl, rfl, rfl, ?_, ?_⟩
  · dsimp only
    rw [Bool.and_eq_true, List.isEmpty_iff, append_eq_self_iff]
  · intro hne
    dsimp only
    simp [List.isEmpty_iff, hne]

/-- Consistency of the in-memory tracking: both `scheduledNotificationsRef`
and the displayed `scheduledCount` equal the length of
`notificationIdsRef.current`. -/
def trackInv (s : AppModel) : Prop :=
  s.scheduledNotificationsRef = s.notificationIds.length ∧
  s.scheduledCount = s.notificationIds.length

lemma trackInv_batch (env : Env) (sf ib ac : Bool) (s : AppModel)
    (h : trackInv s) :
    trackInv (scheduleNextNotificationBatch env sf ib ac s).1 := by
  unfold scheduleNextNotificationBatch
  split
  · exact h
  · dsimp only
    split
    · exact ⟨h.1, h.2⟩
    · exact ⟨rfl, rfl⟩

lemma trackInv_received (env : Env) (identifier : String) (s : AppModel)
    (h : trackInv s) : trackInv (onNotificationReceived env identifier s) := by
  unfold onNotificationReceived
  dsimp only
  by_cases hid : identifier ≠ ""
  · rw [if_pos hid]
    split
    · exact trackInv_batch env true false _ _ ⟨rfl, rfl⟩
    · exact ⟨rfl, rfl⟩
  · rw [if_neg hid]
    split
    · exact trackInv_batch env true false _ _ h
    · exact h

/-- Concrete active state used by the witnesses: one tracked notification,
with consistent counters, and bounds 1–2 seconds. -/
def sAct : AppModel :=
  { isActive := true, minInterval := 1, maxInterval := 2, scheduledCount := 1,
    isActiveRef := true, notificationIds := ["a"],
    scheduledNotificationsRef := 1, osScheduled := [("a", 5000)] }

/-- Claim C6, counterexample. The claim that every identifier-changing
operation leaves both `scheduledNotificationsRef.current` and
`scheduledCount` equal to the length of `notificationIdsRef.current` fails
at the notification-response listener: responding to the only tracked
notification of `sAct` empties the identifier list and sets
`scheduledCount` to 0, but `scheduledNotificationsRef` keeps its old value
1. -/
theorem tracking_consistency_counterexample :
    ¬ ((onNotificationResponse "a" sAct).scheduledNotificationsRef =
        (onNotificationResponse "a" sAct).notificationIds.length) := by
  decide

/-- Claim C6, amended. After successful batch scheduling, after the
notification-received listener, and after cancellation, both
`scheduledNotificationsRef` and `scheduledCount` equal the length of
`notificationIdsRef.current` (assuming they did before); the
notification-response listener keeps `scheduledCount` equal to that length
but does not update `scheduledNotificationsRef`. -/
theorem tracking_consistency_amended (env : Env) (identifier : String)
    (sf ib ac : Bool) (s : AppModel) (h : trackInv s) :
    trackInv (scheduleNextNotificationBatch env sf ib ac s).1 ∧
    trackInv (onNotificationReceived env identifier s) ∧
    trackInv (cancelAllNotifications s) ∧
    (onNotificationResponse identifier s).scheduledCount =
      (onNotificationResponse identifier s).notificationIds.length := by
  refine ⟨trackInv_batch env sf ib ac s h, trackInv_received env identifier s h,
    ⟨rfl, rfl⟩, ?_⟩
  unfold onNotificationResponse
  split
  · rfl
  · exact h.2

/-- Environment used by the witnesses: time 0, every random draw 0, every
scheduling call succeeding with identifier `toString i`. -/
def envW : Env :=
  { now := 0, rs := fun _ => 0, sched := fun i => some (toString i) }

/-- Environment whose every scheduling call throws. -/
def envFail : Env := { now := 0, rs := fun _ => 0, sched := fun _ => none }

/-- Concrete inactive state used by the witnesses. -/
def sInact : AppModel :=
  { isActive := false, minInterval := 300, maxInterval := 600,
    scheduledCount := 0, isActiveRef := false, notificationIds := [],
    scheduledNotificationsRef := 0, osScheduled := [] }

/-- Concrete inactive state of the audio-timer variant. -/
def tInact : SoundModel :=
  { isActive := false, nextSoundIn := none, minInterval := 10,
    maxInterval := 30, isActiveRef := false, timerSet := false,
    countdownSet := false }

theorem randomInterval_range_uniform_witness :
    300 ≤ randomInterval 300 600 (1 / 2) ∧
      randomInterval 300 600 (1 / 2) ≤ 600 :=
  ⟨(randomInterval_range_uniform 300 600 (1 / 2) (by norm_num) (by norm_num)
      (by norm_num)).1,
   (randomInterval_range_uniform 300 600 (1 / 2) (by norm_num) (by norm_num)
      (by norm_num)).2.1⟩

theorem cancel_on_stop_and_bounds_change_witness :
    (toggleActive envW sAct).notificationIds = [] ∧
    (handleMinIntervalChange envW 5 sInact).osScheduled =
      sInact.osScheduled :=
  ⟨((cancel_on_stop_and_bounds_change envW 5 sAct).1 rfl).1,
   ((cancel_on_stop_and_bounds_change envW 5 sInact).2.2.2.1 rfl).2.2.2⟩

theorem scheduleBatch_trigger_chain_witness :
    (scheduleNextNotificationBatch envW false true true sAct).1.osScheduled =
      sAct.osScheduled ++
        batchChainPairs envW false true 1 2 (fun i => toString i) :=
  (scheduleBatch_trigger_chain envW false true true sAct
    (fun i => toString i) rfl (by decide) (by decide) (fun i => le_refl 0)
    (fun i => rfl)).1

theorem appState_replenish_iff_witness :
    (handleAppStateChange envW AppStateStatus.active sAct).2 = true :=
  (appState_replenish_iff envW sAct rfl).1.mpr (by decide)

theorem scheduleBatch_error_retry_witness :
    (scheduleNextNotificationBatch envFail false false true
      sAct).1.notificationIds = sAct.notificationIds := by
  have herr : (batchPairs envFail false false sAct.minInterval
      sAct.maxInterval).2 = true := by
    show (batchLoop 1 2 envFail.rs envFail.sched 0 0 2 0).2 = true
    rw [batchLoop]
    norm_num [envFail, randomInterval]
  exact (scheduleBatch_error_retry envFail false false true sAct rfl herr).1

theorem tracking_consistency_amended_witness :
    trackInv (cancelAllNotifications sAct) :=
  (tracking_consistency_amended envW "a" false false true sAct
    ⟨rfl, rfl⟩).2.2.1

theorem batch_sizes_witness :
    (scheduleNextNotificationBatch envW false true true
      sAct).1.notificationIds.length = sAct.notificationIds.length + 32 :=
  (batch_sizes envW false true sAct (fun i => toString i) rfl (by decide)
    (by decide) (fun i => le_refl 0) (fun i => rfl)).2.2.1

theorem inactive_schedules_nothing_witness :
    scheduleNextNotificationBatch envW false false false sInact =
      (sInact, false) ∧ scheduleNextSound 0 tInact = tInact :=
  inactive_schedules_nothing envW false false false sInact 0 tInact rfl rfl
